import Mathlib

/-!
Verification of the forecast-extraction core of the weather dashboard
(`extract.py`, with the CSV-loader fragment of `api.py`).

The embedding models Python floats as exact rationals (`ℚ`).  The two
transcendental operations the code uses (`** 0.16` in the wind-chill
formula and `math.log` in the dew-point formula) are passed in as
function parameters of an `Ops` record, so every definition stays
computable; all theorems about those formulas hold for every
interpretation of the two operations, hence in particular for the real
ones.  Timestamps produced by `pd.to_datetime(..., errors="coerce")`
are modelled as epoch seconds (`ℤ`), the parser itself being a further
`Ops` parameter (`none` = `NaT`, i.e. an unparseable timestamp).
-/

namespace Weather

/-- A raw JSON / CSV cell value as seen by `_safe` (extract.py lines
40-44): `num q` is any value Python `float()` converts to the number
`q` (ints, floats, numeric strings, booleans); `null` is JSON
`null`/Python `None`; `nonNum` is any value on which `float()` raises
`TypeError` or `ValueError`. -/
inductive RawVal where
  | num (q : ℚ)
  | null
  | nonNum
deriving DecidableEq, Repr

/-- The `"main"` sub-dict of one forecast slot; `none` means the key is
absent (a missing `"main"` dict behaves like all keys absent). -/
structure RawMain where
  temp : Option RawVal
  feels_like : Option RawVal
  temp_min : Option RawVal
  temp_max : Option RawVal
  humidity : Option RawVal
  pressure : Option RawVal
deriving DecidableEq, Repr

/-- One entry of the `"weather"` array; `none` means the key is absent. -/
structure WeatherDesc where
  description : Option String
  icon : Option String
deriving DecidableEq, Repr

/-- One raw forecast slot (an element of `data["list"]`), the RawSlot of
the spec.  `wind_speed`/`wind_deg` are `wind.speed`/`wind.deg`,
`clouds_all` is `clouds.all`; a missing inner dict behaves like the
inner key being absent, which coincides with this flattened model. -/
structure RawSlot where
  main : RawMain
  wind_speed : Option RawVal
  wind_deg : Option RawVal
  clouds_all : Option RawVal
  pop : Option RawVal
  visibility : Option RawVal
  weather : List WeatherDesc
  dt_txt : Option String
deriving DecidableEq, Repr

/-- The whole API response: `data["list"]` and
`data["city"]["name"]` (`none` when either level is missing). -/
structure RawData where
  list : List RawSlot
  city_name : Option String
deriving DecidableEq, Repr

/-- `_safe(d.get(key, dflt))` for a numeric `dflt` (extract.py lines
40-44 and the call sites at lines 75-86): a missing key yields the
`get` default, a present value goes through `float()` whose failure
(on `null` or a non-convertible value) yields the `_safe` fallback
`0.0`. -/
def safeGet (v : Option RawVal) (dflt : ℚ) : ℚ :=
  match v with
  | none => dflt
  | some (.num q) => q
  | some .null => 0
  | some .nonNum => 0

/-- `_heat_index` (extract.py lines 9-22): Rothfusz regression,
computed in Fahrenheit and converted back to Celsius. -/
def heatIndex (temp_c rh : ℚ) : ℚ :=
  let t : ℚ := temp_c * 9 / 5 + 32
  let hi : ℚ :=
    -42.379
    + 2.04901523 * t
    + 10.14333127 * rh
    - 0.22475541 * t * rh
    - 0.00683783 * t ^ 2
    - 0.05481717 * rh ^ 2
    + 0.00122874 * t ^ 2 * rh
    + 0.00085282 * t * rh ^ 2
    - 0.00000199 * t ^ 2 * rh ^ 2
  (hi - 32) * 5 / 9

/-- `_wind_chill` (extract.py lines 25-31); `vpow` stands for the
function `fun v => v ** 0.16`. -/
def windChill (vpow : ℚ → ℚ) (temp_c wind_kmh : ℚ) : ℚ :=
  13.12 + 0.6215 * temp_c - 11.37 * vpow wind_kmh
    + 0.3965 * temp_c * vpow wind_kmh

/-- `_dew_point` (extract.py lines 34-37); `lg` stands for `math.log`. -/
def dewPoint (lg : ℚ → ℚ) (temp_c rh : ℚ) : ℚ :=
  let gamma : ℚ := 17.27 * temp_c / (237.7 + temp_c) + lg (rh / 100)
  237.7 * gamma / (17.27 - gamma)

/-- Python `round` to an integer (banker rounding, half to even),
applied to the exact rational value. -/
def rhe (q : ℚ) : ℤ :=
  let n : ℤ := ⌊q⌋
  let r : ℚ := q - n
  if r < 1/2 then n else if 1/2 < r then n + 1 else if n % 2 = 0 then n else n + 1

/-- Python `round(q, d)`. -/
def roundTo (d : ℕ) (q : ℚ) : ℚ := (rhe (q * 10 ^ d) : ℚ) / 10 ^ d

/-- The operations the pipeline takes from outside the embedded
fragment: the two transcendental functions (`** 0.16` and `math.log`),
the timestamp parser `pd.to_datetime(..., errors="coerce")` (epoch
seconds, `none` = `NaT`), and the three `strftime` label formats. -/
structure Ops where
  pow016 : ℚ → ℚ
  log : ℚ → ℚ
  parseTime : String → Option ℤ
  fmtDay : ℤ → String
  fmtHour : ℤ → String
  fmtFull : ℤ → String

/-- `temp = _safe(main.get("temp"))` (extract.py line 75). -/
def tempOf (item : RawSlot) : ℚ := safeGet item.main.temp 0

/-- `feels_like = _safe(main.get("feels_like", temp))` (line 76). -/
def feelsLikeOf (item : RawSlot) : ℚ := safeGet item.main.feels_like (tempOf item)

/-- `temp_min = _safe(main.get("temp_min", temp))` (line 77). -/
def tempMinOf (item : RawSlot) : ℚ := safeGet item.main.temp_min (tempOf item)

/-- `temp_max = _safe(main.get("temp_max", temp))` (line 78). -/
def tempMaxOf (item : RawSlot) : ℚ := safeGet item.main.temp_max (tempOf item)

/-- `humidity = _safe(main.get("humidity", 0))` (line 79). -/
def humidityOf (item : RawSlot) : ℚ := safeGet item.main.humidity 0

/-- `pressure = _safe(main.get("pressure", 1013))` (line 80). -/
def pressureOf (item : RawSlot) : ℚ := safeGet item.main.pressure 1013

/-- `wind_speed = _safe(wind.get("speed", 0))` (line 81), in m/s. -/
def windSpeedOf (item : RawSlot) : ℚ := safeGet item.wind_speed 0

/-- `wind_deg = _safe(wind.get("deg", 0))` (line 82). -/
def windDegOf (item : RawSlot) : ℚ := safeGet item.wind_deg 0

/-- `clouds = _safe(item.get("clouds", {}).get("all", 0))` (line 83). -/
def cloudsOf (item : RawSlot) : ℚ := safeGet item.clouds_all 0

/-- `raw_pop = _safe(item.get("pop", 0))` (line 84). -/
def rawPopOf (item : RawSlot) : ℚ := safeGet item.pop 0

/-- `pop = raw_pop * 100 if raw_pop <= 1 else raw_pop` (line 85). -/
def popStore (raw_pop : ℚ) : ℚ := if raw_pop ≤ 1 then raw_pop * 100 else raw_pop

/-- `visibility = _safe(item.get("visibility", 10000)) / 1000` (line 86), km. -/
def visibilityOf (item : RawSlot) : ℚ := safeGet item.visibility 10000 / 1000

/-- The `hi` local (lines 92-95): Rothfusz only when `temp >= 27 and
humidity >= 40`, plain temperature otherwise. -/
def hiVal (temp humidity : ℚ) : ℚ :=
  if 27 ≤ temp ∧ 40 ≤ humidity then heatIndex temp humidity else temp

/-- The `wc` local (lines 97-100): JAG/TI only when `temp <= 10 and
wind_kmh >= 4.8`, plain temperature otherwise. -/
def wcVal (vpow : ℚ → ℚ) (temp wind_kmh : ℚ) : ℚ :=
  if temp ≤ 10 ∧ 4.8 ≤ wind_kmh then windChill vpow temp wind_kmh else temp

/-- One normalized row as appended at extract.py lines 104-125, without
the `time` column (kept separately until parsing). -/
structure NRow where
  temp : ℚ
  temp_min : ℚ
  temp_max : ℚ
  feels_like : ℚ
  humidity : ℚ
  pressure : ℚ
  wind_speed : ℚ
  wind_kmh : ℚ
  wind_deg : ℚ
  pop : ℚ
  clouds : ℚ
  visibility : ℚ
  description : String
  icon : String
  heat_index : ℚ
  wind_chill : ℚ
  dew_point : ℚ
deriving DecidableEq, Repr

/-- The body of the `for item in list_data` loop (extract.py lines
69-125): the raw `dt_txt` string paired with the rounded row. -/
def normalizeSlot (ops : Ops) (item : RawSlot) : String × NRow :=
  (item.dt_txt.getD "",
   { temp := roundTo 1 (tempOf item)
     temp_min := roundTo 1 (tempMinOf item)
     temp_max := roundTo 1 (tempMaxOf item)
     feels_like := roundTo 1 (feelsLikeOf item)
     humidity := roundTo 1 (humidityOf item)
     pressure := roundTo 1 (pressureOf item)
     wind_speed := roundTo 2 (windSpeedOf item)
     wind_kmh := roundTo 1 (windSpeedOf item * 3.6)
     wind_deg := roundTo 0 (windDegOf item)
     pop := roundTo 1 (popStore (rawPopOf item))
     clouds := roundTo 0 (cloudsOf item)
     visibility := roundTo 2 (visibilityOf item)
     description := ((item.weather.headD ⟨none, none⟩).description).getD ""
     icon := ((item.weather.headD ⟨none, none⟩).icon).getD "01d"
     heat_index := roundTo 1 (hiVal (tempOf item) (humidityOf item))
     wind_chill := roundTo 1 (wcVal ops.pow016 (tempOf item) (windSpeedOf item * 3.6))
     dew_point := roundTo 1 (dewPoint ops.log (tempOf item) (max (humidityOf item) 1)) })

/-- One row of the final DataFrame: parsed timestamp, data columns and
the three label columns added at extract.py lines 132-134. -/
structure TRow where
  time : ℤ
  row : NRow
  day_label : String
  hour_label : String
  datetime_str : String
deriving DecidableEq, Repr

/-- Comparison used by `sort_values("time")`: by parsed timestamp. -/
def pairLe (a b : ℤ × NRow) : Prop := a.1 ≤ b.1

instance : DecidableRel pairLe := fun a b => decidable_of_iff (a.1 ≤ b.1) Iff.rfl

instance : IsTotal (ℤ × NRow) pairLe := ⟨fun a b => Int.le_total a.1 b.1⟩

instance : IsTrans (ℤ × NRow) pairLe := ⟨fun _ _ _ h h2 => le_trans h h2⟩

/-- Normalization, timestamp parsing and NaT-dropping (extract.py lines
68-129 up to `dropna`): the rows whose `dt_txt` parses, paired with
their timestamps. -/
def timedRows (ops : Ops) (slots : List RawSlot) : List (ℤ × NRow) :=
  (slots.map (normalizeSlot ops)).filterMap
    (fun p => (ops.parseTime p.1).map (fun t => (t, p.2)))

/-- The label columns added at extract.py lines 132-134, as formatted
projections of the parsed timestamp. -/
def attachLabels (ops : Ops) (p : ℤ × NRow) : TRow :=
  { time := p.1, row := p.2, day_label := ops.fmtDay p.1,
    hour_label := ops.fmtHour p.1, datetime_str := ops.fmtFull p.1 }

/-- `extract_data` (extract.py lines 50-140).  An empty `list` returns
the empty frame early (lines 64-66).  Otherwise the rows are
normalized, unparseable timestamps dropped, the rest sorted by time
and labelled.  When every row was dropped, the success print at lines
136-139 evaluates `df["time"].iloc[0]` on an empty frame and raises
`IndexError`, modelled as the `error` result. -/
def extract_data (ops : Ops) (data : RawData) : Except String (List TRow × String) :=
  let city := data.city_name.getD "Unknown City"
  if data.list.isEmpty then .ok ([], city)
  else
    let sorted := List.insertionSort pairLe (timedRows ops data.list)
    let final := sorted.map (attachLabels ops)
    if final.isEmpty then .error "IndexError: df.time.iloc 0 on empty frame"
    else .ok (final, city)

/-- `df["time"].dt.date` for an epoch-seconds timestamp: the calendar
day, i.e. floor division by 86400. -/
def dateOf (t : ℤ) : ℤ := Int.fdiv t 86400

/-- `Series.mean()`: arithmetic mean. -/
def qmean (l : List ℚ) : ℚ := l.sum / l.length

/-- `Series.max()` of a column. -/
def qmaxList : List ℚ → ℚ
  | [] => 0
  | x :: xs => xs.foldl max x

/-- `Series.min()` of a column. -/
def qminList : List ℚ → ℚ
  | [] => 0
  | x :: xs => xs.foldl min x

/-- The SummaryDigest mapping returned by `compute_summary`. -/
structure Digest where
  temp_avg : ℚ
  temp_max : ℚ
  temp_min : ℚ
  humidity_avg : ℚ
  pressure_avg : ℚ
  wind_max : ℚ
  pop_max : ℚ
  dew_point_avg : ℚ
  total_slots : ℕ
  days_covered : ℕ
deriving DecidableEq, Repr

/-- `compute_summary` (extract.py lines 146-161); `none` models the
empty dict returned for an empty frame. -/
def compute_summary (rows : List TRow) : Option Digest :=
  if rows.isEmpty then none
  else some
    { temp_avg := roundTo 1 (qmean (rows.map (fun r => r.row.temp)))
      temp_max := roundTo 1 (qmaxList (rows.map (fun r => r.row.temp_max)))
      temp_min := roundTo 1 (qminList (rows.map (fun r => r.row.temp_min)))
      humidity_avg := roundTo 1 (qmean (rows.map (fun r => r.row.humidity)))
      pressure_avg := roundTo 1 (qmean (rows.map (fun r => r.row.pressure)))
      wind_max := roundTo 2 (qmaxList (rows.map (fun r => r.row.wind_speed)))
      pop_max := roundTo 1 (qmaxList (rows.map (fun r => r.row.pop)))
      dew_point_avg := roundTo 1 (qmean (rows.map (fun r => r.row.dew_point)))
      total_slots := rows.length
      days_covered := ((rows.map (fun r => dateOf r.time)).dedup).length }

/-- The pop computation of the local CSV loader,
`_load_local_csv_as_api` (api.py lines 37-43): coerce the CSV cell
with `float()`, divide by 100 when the result exceeds 1; any coercion
failure yields `0.0`. -/
def csvPop (v : Option RawVal) : ℚ :=
  match v with
  | none => if 1 < (0 : ℚ) then 0 / 100 else 0
  | some (.num q) => if 1 < q then q / 100 else q
  | some .null => 0
  | some .nonNum => 0

/-- Spec §4.1/Glossary formulation of the heat index: the Rothfusz
nine-term regression on the Fahrenheit temperature and the relative
humidity, converted back to Celsius. -/
def rothfuszSpec (T RH : ℚ) : ℚ :=
  let tF : ℚ := 9 * T / 5 + 32
  let hiF : ℚ :=
    -42.379 + 2.04901523 * tF + 10.14333127 * RH - 0.22475541 * tF * RH
      - 0.00683783 * tF * tF - 0.05481717 * RH * RH + 0.00122874 * tF * tF * RH
      + 0.00085282 * tF * RH * RH - 0.00000199 * tF * tF * RH * RH
  (hiF - 32) * 5 / 9

/-- Spec §4.1 formulation of the JAG/TI wind-chill formula,
`13.12 + 0.6215·T − 11.37·V^0.16 + 0.3965·T·V^0.16`; `vpow` stands for
`fun v => v ^ 0.16`. -/
def jagtiSpec (vpow : ℚ → ℚ) (T V : ℚ) : ℚ :=
  13.12 + 0.6215 * T - 11.37 * vpow V + 0.3965 * T * vpow V

/-- Spec §4.2 Summarize contract, stated over the embedded series:
means of temperature/humidity/pressure/dew point, max of the per-slot
`temp_max` field, min of `temp_min`, max wind speed and precipitation
probability, the row count, and the number of distinct calendar dates;
1 decimal everywhere except `wind_max` (2 decimals) and the counts. -/
def summarySpec (rows : List TRow) : Digest :=
  { temp_avg := roundTo 1 (qmean (rows.map (fun r => r.row.temp)))
    temp_max := roundTo 1 (qmaxList (rows.map (fun r => r.row.temp_max)))
    temp_min := roundTo 1 (qminList (rows.map (fun r => r.row.temp_min)))
    humidity_avg := roundTo 1 (qmean (rows.map (fun r => r.row.humidity)))
    pressure_avg := roundTo 1 (qmean (rows.map (fun r => r.row.pressure)))
    wind_max := roundTo 2 (qmaxList (rows.map (fun r => r.row.wind_speed)))
    pop_max := roundTo 1 (qmaxList (rows.map (fun r => r.row.pop)))
    dew_point_avg := roundTo 1 (qmean (rows.map (fun r => r.row.dew_point)))
    total_slots := rows.length
    days_covered := ((rows.map (fun r => dateOf r.time)).dedup).length }

/-- Concrete interpretation of the external operations, for witnesses:
trivial transcendentals, a parser that accepts nothing, empty labels. -/
def defaultOps : Ops :=
  { pow016 := fun _ => 0, log := fun _ => 0, parseTime := fun _ => none,
    fmtDay := fun _ => "", fmtHour := fun _ => "", fmtFull := fun _ => "" }

/-- A `"main"` dict with every key absent. -/
def emptyMain : RawMain := ⟨none, none, none, none, none, none⟩

/-- A slot with every field absent. -/
def emptySlot : RawSlot := ⟨emptyMain, none, none, none, none, none, [], none⟩

/-- A slot whose only content is an unparseable timestamp string. -/
def badSlot : RawSlot := { emptySlot with dt_txt := some "garbage" }

/-- A response with one slot whose timestamp cannot be parsed. -/
def badInput : RawData := ⟨[badSlot], some "Chennai"⟩

/-- A response with an empty slot list. -/
def emptyInput : RawData := ⟨[], some "Chennai"⟩

/-- A slot carrying only a timestamp string, a temperature and a
humidity, as in the end-to-end example of spec §8. -/
def mkSlotTH (t : String) (T RH : ℚ) : RawSlot :=
  { emptySlot with
      main := { emptyMain with temp := some (.num T), humidity := some (.num RH) },
      dt_txt := some t }

/-- Operations for the end-to-end example: the three example timestamp
strings parse to seconds counted from 2024-01-01 00:00 (all three fall
on the same calendar day), everything else is NaT. -/
def exOps : Ops :=
  { defaultOps with parseTime := fun s =>
      if s = "2024-01-01 00:00:00" then some 0
      else if s = "2024-01-01 03:00:00" then some 10800
      else if s = "2024-01-01 06:00:00" then some 21600
      else none }

/-- The three-slot input of the end-to-end example of spec §8. -/
def exInput : RawData :=
  ⟨[mkSlotTH "2024-01-01 00:00:00" 5 90,
    mkSlotTH "2024-01-01 03:00:00" 15 50,
    mkSlotTH "2024-01-01 06:00:00" 25 30], some "Testville"⟩

/-- Operations for the ordering witness: two parseable timestamp
strings, out of order in the input, and one unparseable one. -/
def ordOps : Ops :=
  { defaultOps with parseTime := fun s =>
      if s = "t2" then some 200 else if s = "t1" then some 100 else none }

/-- Input for the ordering witness: timestamps out of order, one row
unparseable. -/
def ordInput : RawData :=
  ⟨[{ emptySlot with dt_txt := some "t2" },
    { emptySlot with dt_txt := some "t1" },
    { emptySlot with dt_txt := some "junk" }], none⟩

/-- The rows `extract_data exOps exInput` produces: the three example
slots in timestamp order, with empty labels. -/
def exRows : List TRow :=
  [⟨0, (normalizeSlot exOps (mkSlotTH "2024-01-01 00:00:00" 5 90)).2, "", "", ""⟩,
   ⟨10800, (normalizeSlot exOps (mkSlotTH "2024-01-01 03:00:00" 15 50)).2, "", "", ""⟩,
   ⟨21600, (normalizeSlot exOps (mkSlotTH "2024-01-01 06:00:00" 25 30)).2, "", "", ""⟩]

/-- A single concrete row, for the summary witness. -/
def exRow0 : TRow := ⟨0, (normalizeSlot defaultOps emptySlot).2, "", "", ""⟩

/-- C1: on an empty slot list `extract_data` does return the empty
frame and the city name, but on a non-empty list in which every
timestamp fails to parse it raises `IndexError` (at the success print
of extract.py lines 136-139, `df["time"].iloc[0]` on an empty frame)
instead of returning the empty series the spec promises. -/
theorem extract_data_empty_vs_all_unparseable :
    extract_data defaultOps emptyInput = Except.ok ([], "Chennai") ∧
    extract_data defaultOps badInput
      = Except.error "IndexError: df.time.iloc 0 on empty frame" :=
  ⟨rfl, rfl⟩

/-- C2 counterexample: a slot whose `pressure` field is present but
null is stored with pressure `0.0`, not the documented fallback
`1013`. -/
theorem pressure_null_is_zero_not_1013 :
    ¬ ((normalizeSlot defaultOps
          { emptySlot with main := { emptyMain with pressure := some .null } }).2.pressure
        = 1013) := by
  simp only [normalizeSlot, pressureOf, emptySlot, emptyMain, safeGet]
  norm_num [roundTo, rhe]

/-- C2 amended: the documented per-field fallbacks (pressure 1013 hPa,
humidity 0, cloud cover 0, visibility 10000 m, and
feels_like/temp_min/temp_max falling back to the extracted primary
temperature) apply only when the raw field is missing; a field that is
present but null or not convertible to float is coerced to `0.0`
instead, for every field. -/
theorem fallbacks_only_for_missing_fields (ops : Ops) (s : RawSlot) (m : RawMain) :
    (normalizeSlot ops { s with main := { m with pressure := none } }).2.pressure = 1013 ∧
    (normalizeSlot ops { s with main := { m with pressure := some .null } }).2.pressure = 0 ∧
    (normalizeSlot ops { s with main := { m with pressure := some .nonNum } }).2.pressure = 0 ∧
    (normalizeSlot ops { s with main := { m with humidity := none } }).2.humidity = 0 ∧
    (normalizeSlot ops { s with main := { m with humidity := some .null } }).2.humidity = 0 ∧
    (normalizeSlot ops { s with main := { m with humidity := some .nonNum } }).2.humidity = 0 ∧
    (normalizeSlot ops { s with clouds_all := none }).2.clouds = 0 ∧
    (normalizeSlot ops { s with clouds_all := some .null }).2.clouds = 0 ∧
    (normalizeSlot ops { s with clouds_all := some .nonNum }).2.clouds = 0 ∧
    (normalizeSlot ops { s with visibility := none }).2.visibility = 10 ∧
    (normalizeSlot ops { s with visibility := some .null }).2.visibility = 0 ∧
    (normalizeSlot ops { s with visibility := some .nonNum }).2.visibility = 0 ∧
    (normalizeSlot ops { s with main := { m with feels_like := none } }).2.feels_like
      = roundTo 1 (safeGet m.temp 0) ∧
    (normalizeSlot ops { s with main := { m with feels_like := some .null } }).2.feels_like = 0 ∧
    (normalizeSlot ops { s with main := { m with feels_like := some .nonNum } }).2.feels_like = 0 ∧
    (normalizeSlot ops { s with main := { m with temp_min := none } }).2.temp_min
      = roundTo 1 (safeGet m.temp 0) ∧
    (normalizeSlot ops { s with main := { m with temp_min := some .null } }).2.temp_min = 0 ∧
    (normalizeSlot ops { s with main := { m with temp_min := some .nonNum } }).2.temp_min = 0 ∧
    (normalizeSlot ops { s with main := { m with temp_max := none } }).2.temp_max
      = roundTo 1 (safeGet m.temp 0) ∧
    (normalizeSlot ops { s with main := { m with temp_max := some .null } }).2.temp_max = 0 ∧
    (normalizeSlot ops { s with main := { m with temp_max := some .nonNum } }).2.temp_max = 0 := by
  refine ⟨?_, ?_, ?_, ?_, ?_, ?_, ?_, ?_, ?_, ?_, ?_, ?_, ?_, ?_, ?_, ?_, ?_, ?_, ?_, ?_, ?_⟩ <;>
    simp only [normalizeSlot, pressureOf, humidityOf, cloudsOf, visibilityOf,
      feelsLikeOf, tempMinOf, tempMaxOf, tempOf, safeGet] <;>
    norm_num [roundTo, rhe]

/-- C3 counterexample: at temperature 27.0 °C and humidity 40 %, the
Rothfusz branch is taken but its value (≈ 26.86 °C) is strictly below
the plain temperature, refuting the claimed `heat index ≥
temperature`. -/
theorem heat_index_27_40_below_temperature : ¬ (27 ≤ hiVal 27 40) := by
  norm_num [hiVal, heatIndex]

/-- C3 amended: at temperature 26.9 °C and humidity 90 % the heat
index equals the temperature unchanged; at 27.0 °C and 40 % the
Rothfusz regression is applied, but its result is strictly less than
the plain temperature (≈ 26.86 °C), not ≥ it. -/
theorem heat_index_boundary_amended :
    hiVal (26.9 : ℚ) 90 = 26.9 ∧
    hiVal 27 40 = rothfuszSpec 27 40 ∧
    hiVal 27 40 < 27 := by
  refine ⟨?_, ?_, ?_⟩
  · norm_num [hiVal]
  · norm_num [hiVal, heatIndex, rothfuszSpec]
  · norm_num [hiVal, heatIndex]

/-- C4: the `hi` value of the normalizer is the Rothfusz regression of
the spec exactly when extracted temperature ≥ 27 °C and humidity
≥ 40 %, and the plain temperature otherwise; the stored `heat_index`
column is that value rounded to 1 decimal, computed from the extracted
(unrounded) temperature and humidity. -/
theorem heat_index_matches_spec (ops : Ops) (item : RawSlot) (T RH : ℚ) :
    hiVal T RH = (if 27 ≤ T ∧ 40 ≤ RH then rothfuszSpec T RH else T) ∧
    (normalizeSlot ops item).2.heat_index
      = roundTo 1 (hiVal (tempOf item) (humidityOf item)) := by
  constructor
  · simp only [hiVal, heatIndex, rothfuszSpec]
    split_ifs
    · ring_nf
    · rfl
  · rfl

/-- C5: the `wc` value of the normalizer is the JAG/TI formula
`13.12 + 0.6215·T − 11.37·V^0.16 + 0.3965·T·V^0.16` exactly when
T ≤ 10 °C and V ≥ 4.8 km/h and the plain temperature otherwise (for
every interpretation `vpow` of `^ 0.16`); in particular at
T = 10.1 °C the wind chill is the plain temperature for every wind
speed; the stored `wind_chill` column is that value rounded to
1 decimal, with V = extracted wind speed (m/s) × 3.6. -/
theorem wind_chill_matches_spec (ops : Ops) (item : RawSlot) (T V : ℚ) :
    wcVal ops.pow016 T V
      = (if T ≤ 10 ∧ 4.8 ≤ V then jagtiSpec ops.pow016 T V else T) ∧
    wcVal ops.pow016 (10.1 : ℚ) V = 10.1 ∧
    (normalizeSlot ops item).2.wind_chill
      = roundTo 1 (wcVal ops.pow016 (tempOf item) (windSpeedOf item * 3.6)) := by
  refine ⟨rfl, ?_, rfl⟩
  norm_num [wcVal]

/-- C6: the stored precipitation probability is the coerced raw value
scaled by 100 when it is ≤ 1 and passed through unchanged when > 1
(then rounded to 1 decimal in the stored column); raw 0.45 and raw 45
are both stored as 45.0, and the boundary value 1 is scaled to 100. -/
theorem pop_scaling_matches_spec (ops : Ops) (item : RawSlot) (p : ℚ) :
    popStore p = (if p ≤ 1 then p * 100 else p) ∧
    (normalizeSlot ops item).2.pop = roundTo 1 (popStore (rawPopOf item)) ∧
    (normalizeSlot ops { item with pop := some (.num 0.45) }).2.pop = 45 ∧
    (normalizeSlot ops { item with pop := some (.num 45) }).2.pop = 45 ∧
    popStore 1 = 100 := by
  refine ⟨rfl, rfl, ?_, ?_, ?_⟩
  · simp only [normalizeSlot, rawPopOf, safeGet]
    norm_num [popStore, roundTo, rhe]
  · simp only [normalizeSlot, rawPopOf, safeGet]
    norm_num [popStore, roundTo, rhe]
  · norm_num [popStore, roundTo, rhe]

/-- C9: on the empty series `compute_summary` returns the empty digest
(no exception, no zero-filled digest). -/
theorem summary_of_empty_series : compute_summary [] = none := rfl

/-- C10: a CSV percent value 1 < p ≤ 100 is divided by 100 by the local
CSV loader, coerced back by `_safe`, found ≤ 1 by the normalizer and
multiplied by 100 again, so the value stored (before the 1-decimal
rounding) is the original percent p. -/
theorem csv_pop_round_trip (p : ℚ) (h1 : 1 < p) (h2 : p ≤ 100) :
    popStore (safeGet (some (.num (csvPop (some (.num p))))) 0) = p := by
  have hc : csvPop (some (.num p)) = p / 100 := by simp [csvPop, h1]
  have hle : p / 100 ≤ 1 := by linarith
  simp only [safeGet, hc, popStore, if_pos hle]
  ring

/-- C10 witness: the round trip at the concrete percent 45. -/
theorem csv_pop_round_trip_witness :
    (1 : ℚ) < 45 ∧ (45 : ℚ) ≤ 100 ∧
    popStore (safeGet (some (.num (csvPop (some (.num 45))))) 0) = 45 :=
  ⟨by norm_num, by norm_num, csv_pop_round_trip 45 (by norm_num) (by norm_num)⟩

/-- C7: whenever `extract_data` returns a series, that series is
sorted ascending by timestamp, and its rows are exactly (as a
multiset) the normalized rows whose timestamp parsed — rows
with unparseable timestamps are dropped, whatever the input order. -/
theorem series_sorted_and_complete (ops : Ops) (data : RawData)
    (out : List TRow × String) (h : extract_data ops data = Except.ok out) :
    out.1.Pairwise (fun a b => a.time ≤ b.time) ∧
    (out.1.map (fun r => (r.time, r.row))).Perm (timedRows ops data.list) := by
  rcases data with ⟨ls, cn⟩
  cases ls with
  | nil =>
      simp only [extract_data, List.isEmpty_nil, if_true] at h
      injection h with h
      rw [← h]
      exact ⟨List.Pairwise.nil, by simp [timedRows]⟩
  | cons a as =>
      simp only [extract_data, List.isEmpty_cons, Bool.false_eq_true, if_false] at h
      by_cases hF : ((List.insertionSort pairLe (timedRows ops (a :: as))).map
          (attachLabels ops)).isEmpty
      · rw [if_pos hF] at h
        exact absurd h (by simp)
      · rw [if_neg hF] at h
        injection h with h
        rw [← h]
        constructor
        · rw [List.pairwise_map]
          exact List.sorted_insertionSort pairLe (timedRows ops (a :: as))
        · rw [List.map_map]
          refine List.Perm.trans ?_ (List.perm_insertionSort pairLe (timedRows ops (a :: as)))
          have he : ((fun r : TRow => (r.time, r.row)) ∘ attachLabels ops) = id := by
            funext p
            rfl
          rw [he, List.map_id]

/-- C7 witness: a concrete input with out-of-order timestamps and one
unparseable row; the extracted series is sorted and is a permutation
of the two successfully parsed rows. -/
theorem series_sorted_and_complete_witness :
    extract_data ordOps ordInput
        = Except.ok ((extract_data ordOps ordInput).toOption.getD ([], "")) ∧
    ((extract_data ordOps ordInput).toOption.getD ([], "")).1.Pairwise
        (fun a b => a.time ≤ b.time) ∧
    (((extract_data ordOps ordInput).toOption.getD ([], "")).1.map
        (fun r => (r.time, r.row))).Perm (timedRows ordOps ordInput.list) := by
  have h : extract_data ordOps ordInput
      = Except.ok ((extract_data ordOps ordInput).toOption.getD ([], "")) := rfl
  exact ⟨h, (series_sorted_and_complete ordOps ordInput _ h).1,
    (series_sorted_and_complete ordOps ordInput _ h).2⟩

set_option maxHeartbeats 2000000 in
/-- C8: on every non-empty series `compute_summary` returns exactly
the digest of the spec (mean temperature, max of the per-row
`temp_max` field, min of `temp_min`, the three means, max wind speed,
max precipitation probability, row count, distinct calendar dates; 1
decimal except `wind_max` at 2 and the integer counts); and on the
three-slot 2024-01-01 example with temperatures 5, 15, 25 the result
has `temp_avg = 15.0`, `days_covered = 1`, `total_slots = 3`. -/
theorem summary_matches_spec :
    (∀ rows : List TRow, rows ≠ [] → compute_summary rows = some (summarySpec rows)) ∧
    ((extract_data exOps exInput).toOption.map
        (fun pr => (compute_summary pr.1).map
          (fun d => (d.temp_avg, d.days_covered, d.total_slots))))
      = some (some ((15 : ℚ), 1, 3)) := by
  constructor
  · intro rows h
    cases rows with
    | nil => exact absurd rfl h
    | cons a l => rfl
  · have hext : extract_data exOps exInput = Except.ok (exRows, "Testville") := rfl
    rw [hext]
    simp only [Except.toOption, Option.map, exRows, compute_summary, List.isEmpty_cons,
      Bool.false_eq_true, if_false]
    norm_num [normalizeSlot, tempOf, mkSlotTH, emptySlot, emptyMain, safeGet, qmean,
      roundTo, rhe, dateOf, exOps, defaultOps, List.dedup]
    rw [show Int.fdiv 10800 86400 = (0 : ℤ) from rfl,
        show Int.fdiv 21600 86400 = (0 : ℤ) from rfl]
    decide

/-- C8 witness: the general digest equation applied to a concrete
one-row series. -/
theorem summary_matches_spec_witness :
    ([exRow0] ≠ []) ∧ compute_summary [exRow0] = some (summarySpec [exRow0]) :=
  ⟨List.cons_ne_nil exRow0 [], summary_matches_spec.1 [exRow0] (List.cons_ne_nil exRow0 [])⟩

end Weather
